import Mathlib

/-!
Shallow embedding of `server.py`: a Flask relay with a retry/backoff wrapper
around an outbound HTTP POST (`fetch_gemini_api`) and two endpoints
(`summarize`, `read_aloud`) that shape a request payload, invoke the wrapper,
and extract a field from the upstream JSON response.

Modelling conventions:
- JSON values are the inductive `Json`; Python `dict.get`, list indexing `[0]`
  and truthiness are modelled by `dictGet`, `index0` and `truthy`.
- One upstream attempt either raises a transport-level `requests`
  exception or yields an HTTP response (status code, raw text, parsed body);
  an execution is driven by an oracle `outcomes : Nat → Attempt` giving the
  result of the i-th POST.
- `time.sleep` calls are recorded in a trace (`FetchTrace.sleeps`, in
  seconds as rationals; the float delays 1.0, 2.0, 4.0, 8.0 are exact powers
  of two, so ℚ represents them exactly), together with the number of POST
  attempts performed (`FetchTrace.posts`).
- Python exceptions are values of `PyExn`; a propagated exception is an
  `Except.error`.  Falling off the end of the `for` loop (the implicit
  `return None`) is `Except.ok none`.
-/

/-- A JSON value, as produced by `response.json()` / consumed by `jsonify`. -/
inductive Json where
  | null : Json
  | bool (b : Bool) : Json
  | num (n : Int) : Json
  | str (s : String) : Json
  | arr (xs : List Json) : Json
  | obj (kvs : List (String × Json)) : Json

/-- Python truthiness of a JSON value (`if x:`): `None`, `False`, `0`, `""`,
`[]` and `{}` are falsy, everything else truthy. -/
def truthy : Json → Bool
  | .null => false
  | .bool b => b
  | .num n => n != 0
  | .str s => s != ""
  | .arr xs => !xs.isEmpty
  | .obj kvs => !kvs.isEmpty

/-- Python `d.get(key)`: `none` when the key is absent; raises
`AttributeError` when the receiver is not a dict. -/
def dictGet (j : Json) (key : String) : Except String (Option Json) :=
  match j with
  | .obj kvs => .ok (kvs.lookup key)
  | _ => .error "AttributeError: object has no attribute get"

/-- Python `d.get(key, default)`. -/
def dictGetD (j : Json) (key : String) (dflt : Json) : Except String Json :=
  (dictGet j key).map (fun o => o.getD dflt)

/-- Python `xs[0]`: raises `IndexError` on an empty list and `TypeError`
when the value is not a list. -/
def index0 : Json → Except String Json
  | .arr (x :: _) => .ok x
  | .arr [] => .error "IndexError: list index out of range"
  | _ => .error "TypeError: object is not subscriptable"

mutual
/-- Python `str()` of a parsed-JSON value, used when the code interpolates
`error_details` into an f-string. -/
def pyStr : Json → String
  | .null => "None"
  | .bool true => "True"
  | .bool false => "False"
  | .num n => toString n
  | .str s => "\x27" ++ s ++ "\x27"
  | .arr xs => "[" ++ pyStrList xs ++ "]"
  | .obj kvs => "\x7b" ++ pyStrObj kvs ++ "\x7d"

def pyStrList : List Json → String
  | [] => ""
  | [x] => pyStr x
  | x :: xs => pyStr x ++ ", " ++ pyStrList xs

def pyStrObj : List (String × Json) → String
  | [] => ""
  | [(k, v)] => "\x27" ++ k ++ "\x27: " ++ pyStr v
  | (k, v) :: xs => "\x27" ++ k ++ "\x27: " ++ pyStr v ++ ", " ++ pyStrObj xs
end

/-- An HTTP response as seen through the `requests` library: status code,
raw body text, and the value `response.json()` parses to. -/
structure HttpResponse where
  status : Nat
  text : String
  json : Json

/-- The outcome of one `requests.post` call: either a transport-level
failure (timeout, connection error — a `RequestException` that is not an
`HTTPError`) or an HTTP response. -/
inductive Attempt where
  | transport (msg : String) : Attempt
  | response (r : HttpResponse) : Attempt

/-- A propagated Python exception. -/
inductive PyExn where
  | httpError (msg : String) (status : Nat) : PyExn
  | requestError (msg : String) : PyExn

/-- The observable behaviour of one call to `fetch_gemini_api`:
the returned value or propagated exception (`.ok none` would be the implicit
`return None` after the loop), the number of POST attempts performed, and the
sequence of `time.sleep` delays in seconds. -/
structure FetchTrace where
  result : Except PyExn (Option Json)
  posts : Nat
  sleeps : List ℚ

/-- `error_details = response.json() if response.text else "No error message
provided."`, as rendered into the f-string. -/
def errorDetailsStr (r : HttpResponse) : String :=
  if r.text != "" then pyStr r.json else "No error message provided."

/-- The message of the `HTTPError` raised for upstream status 400 or 403. -/
def credMsg (status : Nat) (details : String) : String :=
  "API Key likely invalid or not configured correctly. Status " ++
    toString status ++ ". Details: " ++ details

/-- The message of the `HTTPError` raised for other non-retried statuses. -/
def failMsg (status : Nat) : String :=
  "API call failed with status " ++ toString status

/-- `response.raise_for_status()` raises `HTTPError` exactly for status
codes in 400..599. -/
def raisesForStatus (s : Nat) : Bool := 400 ≤ s && s < 600

/-- The body of the `for i in range(max_retries)` loop of
`fetch_gemini_api`, iterating over the remaining loop indices.  `rest ≠ []`
is exactly the source's `i < max_retries - 1` test, and `delay` is the
current value of the `delay` variable. -/
def fetchIter (outcomes : Nat → Attempt) : List Nat → ℚ → FetchTrace
  | [], _ => { result := .ok none, posts := 0, sleeps := [] }
  | i :: rest, delay =>
    match outcomes i with
    | .response r =>
      if raisesForStatus r.status then
        -- except requests.exceptions.HTTPError
        if r.status == 429 && !rest.isEmpty then
          let t := fetchIter outcomes rest (delay * 2)
          { result := t.result, posts := t.posts + 1, sleeps := delay :: t.sleeps }
        else
          let details := errorDetailsStr r
          if r.status == 400 || r.status == 403 then
            { result := .error (.httpError (credMsg r.status details) r.status),
              posts := 1, sleeps := [] }
          else
            { result := .error (.httpError (failMsg r.status) r.status),
              posts := 1, sleeps := [] }
      else
        -- raise_for_status did not raise: return response.json()
        { result := .ok (some r.json), posts := 1, sleeps := [] }
    | .transport msg =>
      -- except requests.exceptions.RequestException
      if !rest.isEmpty then
        let t := fetchIter outcomes rest (delay * 2)
        { result := t.result, posts := t.posts + 1, sleeps := delay :: t.sleeps }
      else
        { result := .error (.requestError msg), posts := 1, sleeps := [] }

/-- `fetch_gemini_api`: `max_retries = 5`, initial `delay = 1.0`. -/
def fetch_gemini_api (outcomes : Nat → Attempt) : FetchTrace :=
  fetchIter outcomes (List.range 5) 1

/-- The observable behaviour of one endpoint invocation: HTTP status and
JSON body of the reply, plus the outbound POST attempts and sleeps performed
while handling it. -/
structure EndpointResult where
  status : Nat
  body : Json
  posts : Nat
  sleeps : List ℚ

/-- `jsonify(\x7b"error": msg\x7d)`. -/
def jsonifyError (msg : String) : Json := .obj [("error", .str msg)]

/-- The extraction chain shared by both endpoints:
`api_response.get("candidates", [\x7b\x7d])[0].get("content", \x7b\x7d).get("parts", [\x7b\x7d])[0]`. -/
def extractFirstPart (api_response : Json) : Except String Json := do
  let cands ← dictGetD api_response "candidates" (.arr [.obj []])
  let c0 ← index0 cands
  let content ← dictGetD c0 "content" (.obj [])
  let parts ← dictGetD content "parts" (.arr [.obj []])
  index0 parts

/-- The `/summarize` handler.  `data` is the parsed JSON request body
(`request.get_json()`), `outcomes` drives the upstream attempts.  The
`try`/`except` structure of the source maps `HTTPError` to an
"API Request Failed" body and every other exception to a
"Server Error during summarization" body. -/
def summarize (data : Json) (outcomes : Nat → Attempt) : EndpointResult :=
  match dictGet data "summaryPrompt" with
  | .error e =>
    { status := 500, body := jsonifyError ("Server Error during summarization: " ++ e),
      posts := 0, sleeps := [] }
  | .ok promptOpt =>
    if !truthy (promptOpt.getD .null) then
      { status := 400, body := jsonifyError "Missing summaryPrompt in request body",
        posts := 0, sleeps := [] }
    else
      let t := fetch_gemini_api outcomes
      match t.result with
      | .error (.httpError msg _) =>
        { status := 500, body := jsonifyError ("API Request Failed: " ++ msg),
          posts := t.posts, sleeps := t.sleeps }
      | .error (.requestError msg) =>
        { status := 500, body := jsonifyError ("Server Error during summarization: " ++ msg),
          posts := t.posts, sleeps := t.sleeps }
      | .ok none =>
        -- `api_response` is None; `None.get(...)` raises AttributeError,
        -- caught by the generic `except Exception` clause.
        { status := 500,
          body := jsonifyError
            "Server Error during summarization: AttributeError: object has no attribute get",
          posts := t.posts, sleeps := t.sleeps }
      | .ok (some api_response) =>
        match (extractFirstPart api_response).bind (fun p0 => dictGet p0 "text") with
        | .error e =>
          { status := 500, body := jsonifyError ("Server Error during summarization: " ++ e),
            posts := t.posts, sleeps := t.sleeps }
        | .ok textOpt =>
          if truthy (textOpt.getD .null) then
            { status := 200, body := .obj [("summary", textOpt.getD .null)],
              posts := t.posts, sleeps := t.sleeps }
          else
            { status := 500, body := jsonifyError "Failed to generate summary from the model.",
              posts := t.posts, sleeps := t.sleeps }

/-- Python `s.startswith(pre)`: a prefix test on the character sequence. -/
def pyStartswith (s pre : String) : Bool := pre.data.isPrefixOf s.data

/-- `if audio_data and mime_type and mime_type.startswith("audio/L16")`:
Python `and` short-circuits, and `.startswith` raises `AttributeError`
when a truthy `mime_type` is not a string. -/
def audioCond (audio_data mime_type : Json) : Except String Bool :=
  if !truthy audio_data then .ok false
  else if !truthy mime_type then .ok false
  else match mime_type with
    | .str s => .ok (pyStartswith s "audio/L16")
    | _ => .error "AttributeError: object has no attribute startswith"

/-- The `/read-aloud` handler, structured like `summarize`; the generic
exception clause prefixes "Server Error during TTS generation". -/
def read_aloud (data : Json) (outcomes : Nat → Attempt) : EndpointResult :=
  match dictGet data "textToSpeak" with
  | .error e =>
    { status := 500, body := jsonifyError ("Server Error during TTS generation: " ++ e),
      posts := 0, sleeps := [] }
  | .ok textOpt =>
    if !truthy (textOpt.getD .null) then
      { status := 400, body := jsonifyError "Missing textToSpeak in request body",
        posts := 0, sleeps := [] }
    else
      let t := fetch_gemini_api outcomes
      match t.result with
      | .error (.httpError msg _) =>
        { status := 500, body := jsonifyError ("API Request Failed: " ++ msg),
          posts := t.posts, sleeps := t.sleeps }
      | .error (.requestError msg) =>
        { status := 500, body := jsonifyError ("Server Error during TTS generation: " ++ msg),
          posts := t.posts, sleeps := t.sleeps }
      | .ok none =>
        { status := 500,
          body := jsonifyError
            "Server Error during TTS generation: AttributeError: object has no attribute get",
          posts := t.posts, sleeps := t.sleeps }
      | .ok (some api_response) =>
        match extractFirstPart api_response with
        | .error e =>
          { status := 500, body := jsonifyError ("Server Error during TTS generation: " ++ e),
            posts := t.posts, sleeps := t.sleeps }
        | .ok part =>
          match (dictGetD part "inlineData" (.obj [])).bind (fun d => dictGet d "data"),
                (dictGetD part "inlineData" (.obj [])).bind (fun d => dictGet d "mimeType") with
          | .error e, _ | _, .error e =>
            { status := 500, body := jsonifyError ("Server Error during TTS generation: " ++ e),
              posts := t.posts, sleeps := t.sleeps }
          | .ok audioOpt, .ok mimeOpt =>
            let audio_data := audioOpt.getD .null
            let mime_type := mimeOpt.getD .null
            match audioCond audio_data mime_type with
            | .error e =>
              { status := 500,
                body := jsonifyError ("Server Error during TTS generation: " ++ e),
                posts := t.posts, sleeps := t.sleeps }
            | .ok true =>
              { status := 200,
                body := .obj [("audioData", audio_data), ("mimeType", mime_type)],
                posts := t.posts, sleeps := t.sleeps }
            | .ok false =>
              { status := 500,
                body := jsonifyError
                  "Invalid audio data received from API or model failed to generate audio.",
                posts := t.posts, sleeps := t.sleeps }

/-- A well-formed upstream response whose first candidate's first content
part is `part`. -/
def wfResponse (part : Json) : Json :=
  .obj [("candidates", .arr [.obj [("content", .obj [("parts", .arr [part])])]])]

/-! ### General lemmas about the retry loop -/

/-- Each recorded sleep doubles the previous one: the `k`-th sleep performed
by `fetchIter` entered with current delay `d` lasts `d * 2 ^ k` seconds. -/
theorem fetchIter_sleeps_get (outcomes : Nat → Attempt) :
    ∀ (rest : List Nat) (d : ℚ) (k : Nat) (q : ℚ),
      (fetchIter outcomes rest d).sleeps.get? k = some q → q = d * 2 ^ k
  | [], d, k, q => by simp [fetchIter]
  | i :: rest, d, k, q => by
    have ih := fetchIter_sleeps_get outcomes rest (d * 2)
    rcases houtcome : outcomes i with msg | r <;>
      simp only [fetchIter, houtcome]
    · split
      · cases k with
        | zero => intro h; simp at h; simp [h.symm]
        | succ k =>
          intro h
          simp only [List.get?_cons_succ] at h
          rw [ih k q h, pow_succ]
          ring
      · simp
    · split
      · split
        · cases k with
          | zero => intro h; simp at h; simp [h.symm]
          | succ k =>
            intro h
            simp only [List.get?_cons_succ] at h
            rw [ih k q h, pow_succ]
            ring
        · split <;> simp
      · simp

/-- Totality and bounds for the loop body: on a nonempty index list the loop
never falls through (the implicit `return None` is unreachable), performs at
most one POST per index, and sleeps strictly fewer times than it POSTs. -/
theorem fetchIter_bounds (outcomes : Nat → Attempt) :
    ∀ (rest : List Nat) (d : ℚ),
      (fetchIter outcomes rest d).posts ≤ rest.length ∧
      (fetchIter outcomes rest d).sleeps.length ≤ rest.length - 1 ∧
      (rest ≠ [] → (fetchIter outcomes rest d).result ≠ Except.ok none)
  | [], d => by simp [fetchIter]
  | i :: rest, d => by
    have ih := fetchIter_bounds outcomes rest
    rcases houtcome : outcomes i with msg | r <;>
      simp only [fetchIter, houtcome]
    · split
      · rename_i hcond
        have hrest : rest ≠ [] := by
          intro h
          subst h
          simp at hcond
        have hlen : 1 ≤ rest.length := List.length_pos.mpr hrest
        obtain ⟨ihp, ihs, ihr⟩ := ih (d * 2)
        refine ⟨?_, ?_, fun _ => ihr hrest⟩ <;>
          simp only [List.length_cons] <;> omega
      · refine ⟨?_, ?_, fun _ => by simp⟩ <;>
          simp only [List.length_cons, List.length_nil] <;> omega
    · split
      · split
        · rename_i hcond
          have hrest : rest ≠ [] := by
            intro h
            subst h
            simp at hcond
          have hlen : 1 ≤ rest.length := List.length_pos.mpr hrest
          obtain ⟨ihp, ihs, ihr⟩ := ih (d * 2)
          refine ⟨?_, ?_, fun _ => ihr hrest⟩ <;>
            simp only [List.length_cons] <;> omega
        · split <;>
            refine ⟨?_, ?_, fun _ => by simp⟩ <;>
            simp only [List.length_cons, List.length_nil] <;> omega
      · refine ⟨?_, ?_, fun _ => by simp⟩ <;>
          simp only [List.length_cons, List.length_nil] <;> omega

/-- A successful return carries the parsed body of some attempted response
whose status did not trigger `raise_for_status` (i.e. lies outside 400..599;
this is weaker than being 2xx). -/
theorem fetchIter_ok_source (outcomes : Nat → Attempt) :
    ∀ (rest : List Nat) (d : ℚ) (j : Json),
      (fetchIter outcomes rest d).result = .ok (some j) →
      ∃ i ∈ rest, ∃ r : HttpResponse,
        outcomes i = .response r ∧ raisesForStatus r.status = false ∧ r.json = j
  | [], d, j => by simp [fetchIter]
  | i :: rest, d, j => by
    have ih := fetchIter_ok_source outcomes rest (d * 2) j
    rcases houtcome : outcomes i with msg | r <;>
      simp only [fetchIter, houtcome]
    · split
      · intro h
        obtain ⟨i', hi', r', hr'⟩ := ih h
        exact ⟨i', List.mem_cons_of_mem _ hi', r', hr'⟩
      · simp
    · split
      · rename_i hraises
        split
        · intro h
          obtain ⟨i', hi', r', hr'⟩ := ih h
          exact ⟨i', List.mem_cons_of_mem _ hi', r', hr'⟩
        · split <;> simp
      · rename_i hraises
        intro h
        simp only [Except.ok.injEq, Option.some.injEq] at h
        exact ⟨i, List.mem_cons_self i rest, r, houtcome,
          Bool.eq_false_iff.mpr hraises, h⟩

/-! ### Claims -/

/-- C1: for an inbound request to `/summarize` or `/read-aloud` whose
`summaryPrompt` / `textToSpeak` field is missing or falsy (in particular the
empty string), the endpoint returns a 400 whose error message names the
missing field, and performs no outbound POST attempt (and no sleep). -/
theorem c1_missing_field_returns_400
    (kvs : List (String × Json)) (outcomes : Nat → Attempt)
    (hs : truthy ((kvs.lookup "summaryPrompt").getD .null) = false)
    (ht : truthy ((kvs.lookup "textToSpeak").getD .null) = false) :
    summarize (.obj kvs) outcomes =
      { status := 400, body := jsonifyError "Missing summaryPrompt in request body",
        posts := 0, sleeps := [] } ∧
    read_aloud (.obj kvs) outcomes =
      { status := 400, body := jsonifyError "Missing textToSpeak in request body",
        posts := 0, sleeps := [] } ∧
    (∃ pre post, "Missing summaryPrompt in request body" = pre ++ "summaryPrompt" ++ post) ∧
    (∃ pre post, "Missing textToSpeak in request body" = pre ++ "textToSpeak" ++ post) := by
  refine ⟨?_, ?_, ⟨"Missing ", " in request body", rfl⟩,
    ⟨"Missing ", " in request body", rfl⟩⟩
  · simp [summarize, dictGet, hs]
  · simp [read_aloud, dictGet, ht]

/-- Witness for C1 at a request carrying both fields as empty strings. -/
theorem c1_missing_field_returns_400_witness :
    summarize (.obj [("summaryPrompt", .str ""), ("textToSpeak", .str "")])
        (fun _ => .transport "connection refused") =
      { status := 400, body := jsonifyError "Missing summaryPrompt in request body",
        posts := 0, sleeps := [] } ∧
    read_aloud (.obj [("summaryPrompt", .str ""), ("textToSpeak", .str "")])
        (fun _ => .transport "connection refused") =
      { status := 400, body := jsonifyError "Missing textToSpeak in request body",
        posts := 0, sleeps := [] } := by
  have h := c1_missing_field_returns_400
    [("summaryPrompt", .str ""), ("textToSpeak", .str "")]
    (fun _ => .transport "connection refused") (by rfl) (by rfl)
  exact ⟨h.1, h.2.1⟩

/-- C2: every delay recorded before attempt `k+1` equals
`initialDelay (1) * multiplier (2) ^ k` seconds; and when the upstream
returns 429 on the first four attempts and a 2xx on the fifth, the caller
succeeds after exactly 5 POSTs with the 4 waits 1, 2, 4, 8. -/
theorem c2_backoff_delay_schedule :
    (∀ (outcomes : Nat → Attempt) (k : Nat) (q : ℚ),
        (fetch_gemini_api outcomes).sleeps.get? k = some q → q = 2 ^ k) ∧
    (∀ (r : Nat → HttpResponse) (outcomes : Nat → Attempt),
        (∀ i, outcomes i = .response (r i)) →
        (∀ i < 4, (r i).status = 429) →
        200 ≤ (r 4).status → (r 4).status < 300 →
        fetch_gemini_api outcomes =
          { result := .ok (some (r 4).json), posts := 5, sleeps := [1, 2, 4, 8] }) := by
  constructor
  · intro outcomes k q h
    have := fetchIter_sleeps_get outcomes (List.range 5) 1 k q h
    simpa using this
  · intro r outcomes ho h429 h2a h2b
    have s0 := h429 0 (by norm_num)
    have s1 := h429 1 (by norm_num)
    have s2 := h429 2 (by norm_num)
    have s3 := h429 3 (by norm_num)
    have hrf : raisesForStatus (r 4).status = false := by
      have h4 : ¬ 400 ≤ (r 4).status := by omega
      simp [raisesForStatus, h4]
    simp only [fetch_gemini_api, show List.range 5 = [0, 1, 2, 3, 4] from rfl,
      fetchIter, ho 0, ho 1, ho 2, ho 3, ho 4, s0, s1, s2, s3, hrf]
    norm_num [raisesForStatus]

/-- Witness for C2: a mock returning 429 four times then 200. -/
theorem c2_backoff_delay_schedule_witness :
    fetch_gemini_api
        (fun i => .response (if i < 4 then ⟨429, "", .null⟩ else ⟨200, "ok", .str "done"⟩)) =
      { result := .ok (some (.str "done")), posts := 5, sleeps := [1, 2, 4, 8] } := by
  have h := c2_backoff_delay_schedule.2
    (fun i => if i < 4 then ⟨429, "", .null⟩ else ⟨200, "ok", .str "done"⟩)
    (fun i => .response (if i < 4 then ⟨429, "", .null⟩ else ⟨200, "ok", .str "done"⟩))
    (fun i => rfl) (by decide) (by norm_num) (by norm_num)
  simpa using h

/-- C3: when every upstream attempt has HTTP status 429, the caller performs
exactly 5 POST attempts (with the 4 backoff waits) and then propagates an
`HTTPError` carrying the rate-limit status 429, whose message names 429. -/
theorem c3_rate_limit_exhausts_five_attempts
    (r : Nat → HttpResponse) (outcomes : Nat → Attempt)
    (ho : ∀ i, outcomes i = .response (r i))
    (h429 : ∀ i, (r i).status = 429) :
    fetch_gemini_api outcomes =
      { result := .error (.httpError (failMsg 429) 429), posts := 5,
        sleeps := [1, 2, 4, 8] } ∧
    ∃ pre post, failMsg 429 = pre ++ "429" ++ post := by
  refine ⟨?_, ⟨"API call failed with status ", "", by rfl⟩⟩
  simp only [fetch_gemini_api, show List.range 5 = [0, 1, 2, 3, 4] from rfl,
    fetchIter, ho 0, ho 1, ho 2, ho 3, ho 4, h429 0, h429 1, h429 2, h429 3, h429 4]
  norm_num [raisesForStatus]

/-- Witness for C3 at a mock that always returns 429. -/
theorem c3_rate_limit_exhausts_five_attempts_witness :
    fetch_gemini_api (fun _ => .response ⟨429, "", .null⟩) =
      { result := .error (.httpError (failMsg 429) 429), posts := 5,
        sleeps := [1, 2, 4, 8] } :=
  (c3_rate_limit_exhausts_five_attempts (fun _ => ⟨429, "", .null⟩)
    (fun _ => .response ⟨429, "", .null⟩) (fun _ => rfl) (fun _ => rfl)).1

/-- C4: an upstream 400 or 403 on the first attempt makes the caller fail
immediately — one POST, no retry, no sleep — with an `HTTPError` classified
as a credential/configuration error ("API Key likely invalid or not
configured correctly") whose message embeds the upstream error body
(`error_details`). -/
theorem c4_credential_error_fails_immediately
    (r : HttpResponse) (outcomes : Nat → Attempt)
    (ho : outcomes 0 = .response r)
    (hs : r.status = 400 ∨ r.status = 403) :
    fetch_gemini_api outcomes =
      { result := .error (.httpError (credMsg r.status (errorDetailsStr r)) r.status),
        posts := 1, sleeps := [] } ∧
    ∃ pre, credMsg r.status (errorDetailsStr r) = pre ++ errorDetailsStr r := by
  constructor
  · rcases hs with h | h <;>
      simp only [fetch_gemini_api, show List.range 5 = [0, 1, 2, 3, 4] from rfl,
        fetchIter, ho, h] <;>
      norm_num [raisesForStatus]
  · exact ⟨"API Key likely invalid or not configured correctly. Status " ++
      toString r.status ++ ". Details: ", rfl⟩

/-- Witness for C4 at a mock returning 403 with an empty body. -/
theorem c4_credential_error_fails_immediately_witness :
    fetch_gemini_api (fun _ => .response ⟨403, "", .null⟩) =
      { result := .error (.httpError
          (credMsg 403 (errorDetailsStr ⟨403, "", .null⟩)) 403),
        posts := 1, sleeps := [] } :=
  (c4_credential_error_fails_immediately ⟨403, "", .null⟩
    (fun _ => .response ⟨403, "", .null⟩) rfl (Or.inr rfl)).1

/-- C5 counterexample: status 300 is a non-2xx status other than 429, 400
and 403, yet the caller does not fail at all — `raise_for_status` only
raises for 400..599, so the parsed body of the 300 response is returned as
a success. -/
theorem c5_counterexample :
    fetch_gemini_api (fun _ => .response ⟨300, "x", .str "b"⟩) =
      { result := .ok (some (.str "b")), posts := 1, sleeps := [] } ∧
    (fetch_gemini_api (fun _ => .response ⟨300, "x", .str "b"⟩)).result ≠
      .error (.httpError (failMsg 300) 300) := by
  constructor
  · rfl
  · simp only [show (fetch_gemini_api (fun _ => .response ⟨300, "x", .str "b"⟩)).result =
      .ok (some (.str "b")) from rfl]
    simp

/-- C5 (amended): an upstream status in 400..599 other than 429, 400 and 403
on the first attempt makes the caller fail immediately — one POST, no retry,
no sleep — with an `HTTPError` whose message includes the status code.
(Statuses outside 400..599, e.g. 3xx, are returned as successes.) -/
theorem c5_other_http_error_fails_immediately
    (r : HttpResponse) (outcomes : Nat → Attempt)
    (ho : outcomes 0 = .response r)
    (h4 : 400 ≤ r.status) (h6 : r.status < 600)
    (hn429 : r.status ≠ 429) (hn400 : r.status ≠ 400) (hn403 : r.status ≠ 403) :
    fetch_gemini_api outcomes =
      { result := .error (.httpError (failMsg r.status) r.status),
        posts := 1, sleeps := [] } ∧
    ∃ pre, failMsg r.status = pre ++ toString r.status := by
  constructor
  · have hr : raisesForStatus r.status = true := by
      simp [raisesForStatus, h4, h6]
    have hb429 : (r.status == 429) = false := by simp [hn429]
    have hb400 : (r.status == 400) = false := by simp [hn400]
    have hb403 : (r.status == 403) = false := by simp [hn403]
    simp only [fetch_gemini_api, show List.range 5 = [0, 1, 2, 3, 4] from rfl,
      fetchIter, ho, hr, hb429, hb400, hb403]
    simp
  · exact ⟨"API call failed with status ", rfl⟩

/-- Witness for C5 (amended) at a mock returning 500. -/
theorem c5_other_http_error_fails_immediately_witness :
    fetch_gemini_api (fun _ => .response ⟨500, "", .null⟩) =
      { result := .error (.httpError (failMsg 500) 500), posts := 1, sleeps := [] } :=
  (c5_other_http_error_fails_immediately ⟨500, "", .null⟩
    (fun _ => .response ⟨500, "", .null⟩) rfl (by norm_num) (by norm_num)
    (by norm_num) (by norm_num) (by norm_num)).1

/-- C6: a transport-level failure (timeout, connection error) triggers a
retry after sleeping the current backoff delay whenever the failing attempt
is not the last loop index (`rest ≠ []` is the source's
`i < max_retries - 1`); on the last index the `RequestException` is
re-raised.  In particular, when every attempt fails at the transport level
the caller sleeps 1, 2, 4, 8 and propagates the fifth attempt's failure. -/
theorem c6_transport_retry_then_propagate :
    (∀ (outcomes : Nat → Attempt) (msg : String) (i : Nat) (rest : List Nat) (d : ℚ),
        outcomes i = .transport msg → rest ≠ [] →
        fetchIter outcomes (i :: rest) d =
          { result := (fetchIter outcomes rest (d * 2)).result,
            posts := (fetchIter outcomes rest (d * 2)).posts + 1,
            sleeps := d :: (fetchIter outcomes rest (d * 2)).sleeps }) ∧
    (∀ (outcomes : Nat → Attempt) (msg : String) (i : Nat) (d : ℚ),
        outcomes i = .transport msg →
        fetchIter outcomes [i] d =
          { result := .error (.requestError msg), posts := 1, sleeps := [] }) ∧
    (∀ (outcomes : Nat → Attempt) (m : Nat → String),
        (∀ i, outcomes i = .transport (m i)) →
        fetch_gemini_api outcomes =
          { result := .error (.requestError (m 4)), posts := 5,
            sleeps := [1, 2, 4, 8] }) := by
  refine ⟨?_, ?_, ?_⟩
  · intro outcomes msg i rest d h hrest
    have hne : rest.isEmpty = false := by
      cases rest with
      | nil => exact absurd rfl hrest
      | cons a l => rfl
    simp [fetchIter, h, hne]
  · intro outcomes msg i d h
    simp [fetchIter, h]
  · intro outcomes m hm
    simp only [fetch_gemini_api, show List.range 5 = [0, 1, 2, 3, 4] from rfl,
      fetchIter, hm 0, hm 1, hm 2, hm 3, hm 4]
    norm_num

/-- Witness for C6: every attempt times out. -/
theorem c6_transport_retry_then_propagate_witness :
    fetch_gemini_api (fun _ => .transport "ReadTimeout") =
      { result := .error (.requestError "ReadTimeout"), posts := 5,
        sleeps := [1, 2, 4, 8] } :=
  c6_transport_retry_then_propagate.2.2 (fun _ => .transport "ReadTimeout")
    (fun _ => "ReadTimeout") (fun _ => rfl)

/-- The shared extraction chain on a well-formed response returns its first
candidate's first content part. -/
theorem extractFirstPart_wfResponse (part : Json) :
    extractFirstPart (wfResponse part) = .ok part := rfl

/-- C7 counterexample: a well-formed upstream response whose candidate text
field is present but equal to `""` is not returned verbatim as
`("summary", "")`; the endpoint answers 500 "Failed to generate summary"
because `if text_result:` treats the empty string as falsy. -/
theorem c7_counterexample :
    summarize (.obj [("summaryPrompt", .str "hi")])
        (fun _ => .response ⟨200, "ok", wfResponse (.obj [("text", .str "")])⟩) =
      { status := 500,
        body := jsonifyError "Failed to generate summary from the model.",
        posts := 1, sleeps := [] } ∧
    (summarize (.obj [("summaryPrompt", .str "hi")])
        (fun _ => .response ⟨200, "ok", wfResponse (.obj [("text", .str "")])⟩)).body ≠
      .obj [("summary", .str "")] := by
  constructor
  · rfl
  · simp only [show (summarize (.obj [("summaryPrompt", .str "hi")])
      (fun _ => .response ⟨200, "ok", wfResponse (.obj [("text", .str "")])⟩)).body =
      jsonifyError "Failed to generate summary from the model." from rfl]
    simp [jsonifyError]

/-- C7 (amended): for a well-formed summarize upstream response, if the
first candidate's first content part has a truthy `text` field (any
non-empty string), the endpoint returns it verbatim as `summary`; if the
`text` field is absent — or present but falsy, e.g. the empty string — the
endpoint fails with the generation-failed error. -/
theorem c7_summary_text_extraction
    (prompt : String) (hp : prompt ≠ "") (kvs : List (String × Json))
    (tx : String) (outcomes : Nat → Attempt)
    (ho : outcomes 0 = .response ⟨200, tx, wfResponse (.obj kvs)⟩) :
    (truthy ((kvs.lookup "text").getD .null) = true →
      summarize (.obj [("summaryPrompt", .str prompt)]) outcomes =
        { status := 200, body := .obj [("summary", (kvs.lookup "text").getD .null)],
          posts := 1, sleeps := [] }) ∧
    (truthy ((kvs.lookup "text").getD .null) = false →
      summarize (.obj [("summaryPrompt", .str prompt)]) outcomes =
        { status := 500,
          body := jsonifyError "Failed to generate summary from the model.",
          posts := 1, sleeps := [] }) := by
  have hfetch : fetch_gemini_api outcomes =
      { result := .ok (some (wfResponse (.obj kvs))), posts := 1, sleeps := [] } := by
    simp only [fetch_gemini_api, show List.range 5 = [0, 1, 2, 3, 4] from rfl,
      fetchIter, ho]
    norm_num [raisesForStatus]
  have hbp : truthy (.str prompt) = true := by simp [truthy, hp]
  constructor <;> intro h <;>
    simp [summarize, hfetch, dictGet, hbp, Except.bind, extractFirstPart_wfResponse, h]

/-- Witness for C7 at candidate text "foo". -/
theorem c7_summary_text_extraction_witness :
    summarize (.obj [("summaryPrompt", .str "hi")])
        (fun _ => .response ⟨200, "ok", wfResponse (.obj [("text", .str "foo")])⟩) =
      { status := 200, body := .obj [("summary", .str "foo")],
        posts := 1, sleeps := [] } :=
  (c7_summary_text_extraction "hi" (by simp) [("text", .str "foo")] "ok"
    (fun _ => .response ⟨200, "ok", wfResponse (.obj [("text", .str "foo")])⟩)
    rfl).1 rfl

/-- C8 counterexample: a speech response whose `inlineData` carries the
payload `""` (the base64 encoding of zero bytes) together with the matching
MIME type `audio/L16;rate=24000` is not returned unchanged; the endpoint
answers the 500 invalid-audio error because `if audio_data and ...` treats
the empty string as falsy. -/
theorem c8_counterexample :
    read_aloud (.obj [("textToSpeak", .str "hi")])
        (fun _ => .response ⟨200, "ok",
          wfResponse (.obj [("inlineData",
            .obj [("data", .str ""), ("mimeType", .str "audio/L16;rate=24000")])])⟩) =
      { status := 500,
        body := jsonifyError
          "Invalid audio data received from API or model failed to generate audio.",
        posts := 1, sleeps := [] } ∧
    (read_aloud (.obj [("textToSpeak", .str "hi")])
        (fun _ => .response ⟨200, "ok",
          wfResponse (.obj [("inlineData",
            .obj [("data", .str ""), ("mimeType", .str "audio/L16;rate=24000")])])⟩)).status ≠
      200 := by
  constructor
  · rfl
  · simp only [show (read_aloud (.obj [("textToSpeak", .str "hi")])
      (fun _ => .response ⟨200, "ok",
        wfResponse (.obj [("inlineData",
          .obj [("data", .str ""), ("mimeType", .str "audio/L16;rate=24000")])])⟩)).status =
      500 from rfl]
    norm_num

/-- C8 (amended): for a speech upstream response whose first part's
`inlineData` fields make the source's condition
`audio_data and mime_type and mime_type.startswith("audio/L16")` true —
i.e. a truthy (non-empty) payload and a string MIME type with the
linear-PCM prefix — the endpoint returns payload and MIME type unchanged;
whenever that condition evaluates falsy (payload absent or empty, MIME type
absent or without the prefix, e.g. `audio/mp3`) it returns the 500
invalid-audio error.  For string-valued fields the condition is exactly
`data ≠ "" && mimeType.startswith("audio/L16")`. -/
theorem c8_audio_extraction
    (text : String) (htext : text ≠ "") (kvs : List (String × Json))
    (tx : String) (outcomes : Nat → Attempt)
    (ho : outcomes 0 = .response ⟨200, tx,
        wfResponse (.obj [("inlineData", .obj kvs)])⟩) :
    (audioCond ((kvs.lookup "data").getD .null) ((kvs.lookup "mimeType").getD .null) =
        .ok true →
      read_aloud (.obj [("textToSpeak", .str text)]) outcomes =
        { status := 200,
          body := .obj [("audioData", (kvs.lookup "data").getD .null),
                        ("mimeType", (kvs.lookup "mimeType").getD .null)],
          posts := 1, sleeps := [] }) ∧
    (audioCond ((kvs.lookup "data").getD .null) ((kvs.lookup "mimeType").getD .null) =
        .ok false →
      read_aloud (.obj [("textToSpeak", .str text)]) outcomes =
        { status := 500,
          body := jsonifyError
            "Invalid audio data received from API or model failed to generate audio.",
          posts := 1, sleeps := [] }) ∧
    (∀ d m : String,
      audioCond (.str d) (.str m) = .ok (d != "" && pyStartswith m "audio/L16")) := by
  have hfetch : fetch_gemini_api outcomes =
      { result := .ok (some (wfResponse (.obj [("inlineData", .obj kvs)]))),
        posts := 1, sleeps := [] } := by
    simp only [fetch_gemini_api, show List.range 5 = [0, 1, 2, 3, 4] from rfl,
      fetchIter, ho]
    norm_num [raisesForStatus]
  have hbt : truthy (.str text) = true := by simp [truthy, htext]
  refine ⟨?_, ?_, ?_⟩
  · intro h
    simp [read_aloud, hfetch, dictGet, dictGetD, hbt, Except.bind, Except.map,
      extractFirstPart_wfResponse, h]
  · intro h
    simp [read_aloud, hfetch, dictGet, dictGetD, hbt, Except.bind, Except.map,
      extractFirstPart_wfResponse, h]
  · intro d m
    by_cases hd : d = ""
    · subst hd
      simp [audioCond, truthy]
    · by_cases hm : m = ""
      · subst hm
        have hpre : pyStartswith "" "audio/L16" = false := rfl
        simp [audioCond, truthy, hd, hpre]
      · simp [audioCond, truthy, hd, hm]

/-- Witness for C8: payload "QUJD" with MIME `audio/L16;rate=24000` is
returned unchanged; MIME `audio/mp3` yields the 500 invalid-audio error. -/
theorem c8_audio_extraction_witness :
    read_aloud (.obj [("textToSpeak", .str "hi")])
        (fun _ => .response ⟨200, "ok",
          wfResponse (.obj [("inlineData",
            .obj [("data", .str "QUJD"), ("mimeType", .str "audio/L16;rate=24000")])])⟩) =
      { status := 200,
        body := .obj [("audioData", .str "QUJD"),
                      ("mimeType", .str "audio/L16;rate=24000")],
        posts := 1, sleeps := [] } ∧
    read_aloud (.obj [("textToSpeak", .str "hi")])
        (fun _ => .response ⟨200, "ok",
          wfResponse (.obj [("inlineData",
            .obj [("data", .str "QUJD"), ("mimeType", .str "audio/mp3")])])⟩) =
      { status := 500,
        body := jsonifyError
          "Invalid audio data received from API or model failed to generate audio.",
        posts := 1, sleeps := [] } :=
  ⟨(c8_audio_extraction "hi" (by simp)
      [("data", .str "QUJD"), ("mimeType", .str "audio/L16;rate=24000")] "ok"
      (fun _ => .response ⟨200, "ok",
        wfResponse (.obj [("inlineData",
          .obj [("data", .str "QUJD"), ("mimeType", .str "audio/L16;rate=24000")])])⟩)
      rfl).1 rfl,
   (c8_audio_extraction "hi" (by simp)
      [("data", .str "QUJD"), ("mimeType", .str "audio/mp3")] "ok"
      (fun _ => .response ⟨200, "ok",
        wfResponse (.obj [("inlineData",
          .obj [("data", .str "QUJD"), ("mimeType", .str "audio/mp3")])])⟩)
      rfl).2.1 rfl⟩

/-- C9: every reply either is a 200 success or carries the uniform
`("error", string)` body — the `try`/`except` structure converts every
failure (upstream `HTTPError`, transport failure, malformed response shape)
into such a body, and both handlers are total functions (no failure escapes
the request boundary). -/
theorem c9_uniform_error_body (data : Json) (outcomes : Nat → Attempt) :
    ((summarize data outcomes).status = 200 ∨
      ∃ msg, (summarize data outcomes).body = jsonifyError msg) ∧
    ((read_aloud data outcomes).status = 200 ∨
      ∃ msg, (read_aloud data outcomes).body = jsonifyError msg) := by
  constructor
  · simp only [summarize]
    repeat' split
    all_goals first | (left; rfl) | (right; exact ⟨_, rfl⟩)
  · simp only [read_aloud]
    repeat' split
    all_goals first | (left; rfl) | (right; exact ⟨_, rfl⟩)

/-- C10 counterexample: with every attempt answering status 305 (not a 2xx),
the caller neither raises nor returns the body of a 2xx response — it
returns the parsed body of the 305 response as a success. -/
theorem c10_counterexample :
    fetch_gemini_api (fun _ => .response ⟨305, "y", .str "p"⟩) =
      { result := .ok (some (.str "p")), posts := 1, sleeps := [] } ∧
    ¬ (200 ≤ (305 : Nat) ∧ (305 : Nat) < 300) :=
  ⟨rfl, by norm_num⟩

/-- C10 (amended): for every sequence of attempt outcomes,
`fetch_gemini_api` either returns the parsed body of some attempted response
whose status does not trigger `raise_for_status` (outside 400..599 — not
necessarily 2xx) or propagates an exception; it never falls through the loop
returning `None`, performs at most 5 POST attempts, and sleeps at most 4
times. -/
theorem c10_fetch_total_and_bounded (outcomes : Nat → Attempt) :
    ((∃ j, (fetch_gemini_api outcomes).result = .ok (some j)) ∨
      (∃ e, (fetch_gemini_api outcomes).result = .error e)) ∧
    (fetch_gemini_api outcomes).result ≠ .ok none ∧
    (fetch_gemini_api outcomes).posts ≤ 5 ∧
    (fetch_gemini_api outcomes).sleeps.length ≤ 4 ∧
    (∀ j, (fetch_gemini_api outcomes).result = .ok (some j) →
      ∃ i < 5, ∃ r : HttpResponse,
        outcomes i = .response r ∧ raisesForStatus r.status = false ∧ r.json = j) := by
  obtain ⟨hp, hs, hr⟩ := fetchIter_bounds outcomes (List.range 5) 1
  have hr' : (fetch_gemini_api outcomes).result ≠ .ok none := hr (by simp)
  refine ⟨?_, hr', by simpa using hp, by simpa using hs, ?_⟩
  · rcases hres : (fetch_gemini_api outcomes).result with e | o
    · exact Or.inr ⟨e, rfl⟩
    · rcases o with _ | j
      · exact absurd hres hr'
      · exact Or.inl ⟨j, rfl⟩
  · intro j hj
    obtain ⟨i, hi, r, h1, h2, h3⟩ := fetchIter_ok_source outcomes (List.range 5) 1 j hj
    exact ⟨i, List.mem_range.mp hi, r, h1, h2, h3⟩

/-- Witness for C10 (amended): on an immediately-successful mock the
returned body is traced back to attempt 0's non-raising response. -/
theorem c10_fetch_total_and_bounded_witness :
    ∃ i < 5, ∃ r : HttpResponse,
      (fun _ => Attempt.response ⟨200, "ok", Json.null⟩) i = .response r ∧
      raisesForStatus r.status = false ∧ r.json = .null :=
  (c10_fetch_total_and_bounded (fun _ => .response ⟨200, "ok", .null⟩)).2.2.2.2
    .null rfl
